import Mathlib

/-!
Shallow embedding of the OmniSummarizer pipeline (src/main.py and src/app.py).

External collaborators (the subtitle/audio downloader, the web page fetcher,
the upload/generation backend and the filesystem) are modelled as explicit
environment records; Python strings are Lean `String`s (both are sequences of
unicode code points, so Python `len`/slicing agree with `String.length`,
`String.take`, `String.drop`); the filesystem is the list of file names in
the working directory.
-/

/-- Python whitespace class `\s` (re.UNICODE, the default for `str`),
used by `str.strip()` and by the regexes in the source. -/
def isPySpace (c : Char) : Bool :=
  c = ' ' || c = '\t' || c = '\n' || c = '\r' || c = '\x0b' || c = '\x0c' ||
  c = '\x1c' || c = '\x1d' || c = '\x1e' || c = '\x1f' || c = '\x85' ||
  c = '\u00a0' || c = '\u1680' ||
  ('\u2000' ≤ c && c ≤ '\u200a') ||
  c = '\u2028' || c = '\u2029' || c = '\u202f' || c = '\u205f' || c = '\u3000'

/-- Python `str.strip()` on a character list. -/
def pyStripL (l : List Char) : List Char :=
  ((l.dropWhile isPySpace).reverse.dropWhile isPySpace).reverse

/-- Python `str.strip()`. -/
def pyStrip (s : String) : String := ⟨pyStripL s.data⟩

/-- Python `needle in hay` substring test, on character lists. -/
def isSubList (needle : List Char) : List Char → Bool
  | [] => needle.isEmpty
  | c :: rest => needle.isPrefixOf (c :: rest) || isSubList needle rest

/-- Python truthiness of an `Optional[str]` value: `None` and `""` are falsy. -/
def truthyS : Option String → Bool
  | none => false
  | some s => !(s == "")

/-- Python `str.lower()`, character by character (the markers and scheme
prefixes the classifier compares against are ASCII). -/
def pyLower (s : String) : String := ⟨s.data.map Char.toLower⟩

/-- src/main.py `detect_source_type`, the marker test on the folded input. -/
def hasVideoMarker (t : String) : Bool :=
  isSubList "youtube.com".data t.data || isSubList "youtu.be".data t.data

/-- src/main.py `detect_source_type`: classify the raw input. -/
def detect_source_type (input_text : String) : String :=
  let text := pyLower (pyStrip input_text)
  if hasVideoMarker text then "youtube"
  else if "http://".data.isPrefixOf text.data || "https://".data.isPrefixOf text.data then "web"
  else "text"

/-!  `re.sub(r"<[^>]+>", "", line)` — inline markup tag removal, as a
left-to-right scan.  While inside a candidate tag the machine buffers the
characters read so far (in reverse); a `>` closing a buffer that holds at
least `<` plus one more character completes a match (the buffer is dropped);
a `>` arriving right after `<` means the regex cannot match there (`[^>]+`
needs at least one character), so both characters are emitted verbatim; an
unterminated buffer at end of input is emitted verbatim. -/

def stripTagsGo : Option (List Char) → List Char → List Char
  | none, [] => []
  | some buf, [] => buf.reverse
  | none, c :: rest =>
      if c = '<' then stripTagsGo (some [c]) rest
      else c :: stripTagsGo none rest
  | some buf, c :: rest =>
      if c = '>' then
        if 2 ≤ buf.length then stripTagsGo none rest
        else buf.reverse ++ '>' :: stripTagsGo none rest
      else stripTagsGo (some (c :: buf)) rest

/-- `re.sub(r"<[^>]+>", "", s)` from the Plan A subtitle cleaning loop. -/
def stripTags (s : String) : String := ⟨stripTagsGo none s.data⟩

/-- One iteration of the Plan A subtitle cleaning loop (src/main.py lines
124-136): strip the raw line, drop headers / blank lines / time-range lines,
drop a line equal to the previously retained line (the comparison happens
BEFORE tag removal), then strip tags and retain if nonempty. -/
def cleanVttStep (acc : List String) (raw : String) : List String :=
  let line := pyStrip raw
  if isSubList "-->".data line.data || line = "WEBVTT" || line = "" then acc
  else if acc.getLast? = some line then acc
  else
    let line2 := stripTags line
    if line2 = "" then acc else acc ++ [line2]

/-- The whole Plan A subtitle cleaning loop over the lines of the artifact. -/
def cleanVtt (lines : List String) : List String :=
  lines.foldl cleanVttStep []

/-!  `re.sub(r"\n\s*\n", "\n\n", s)` — the web extractor normalization, as a
left-to-right scan with Python regex (leftmost match, greedy `\s*`)
semantics.  A match is a newline, then a whitespace run, then a newline; by
greediness the closing newline is the LAST newline inside the maximal
whitespace run that follows the opening newline.  Machine states: `normal`
(no pending match), `sawNl buf` (an opening newline was read, `buf` holds the
following non-newline whitespace, reversed), `matched buf` (at least two
newlines of a run were read, `buf` holds the whitespace read since the last
newline, reversed). -/

inductive NlScan
  | normal
  | sawNl (buf : List Char)
  | matched (buf : List Char)

def nlSubGo : NlScan → List Char → List Char
  | .normal, [] => []
  | .sawNl buf, [] => '\n' :: buf.reverse
  | .matched buf, [] => '\n' :: '\n' :: buf.reverse
  | .normal, c :: rest =>
      if c = '\n' then nlSubGo (.sawNl []) rest
      else c :: nlSubGo .normal rest
  | .sawNl buf, c :: rest =>
      if c = '\n' then nlSubGo (.matched []) rest
      else if isPySpace c then nlSubGo (.sawNl (c :: buf)) rest
      else '\n' :: buf.reverse ++ c :: nlSubGo .normal rest
  | .matched buf, c :: rest =>
      if c = '\n' then nlSubGo (.matched []) rest
      else if isPySpace c then nlSubGo (.matched (c :: buf)) rest
      else '\n' :: '\n' :: buf.reverse ++ c :: nlSubGo .normal rest

/-- `re.sub(r"\n\s*\n", "\n\n", s)` from src/main.py `load_web_node`. -/
def normalize_newlines (s : String) : String := ⟨nlSubGo .normal s.data⟩

/-- Decides whether `re.search(r"\n\s*\n", s)` would find a match: the Bool
state records whether the scan is inside a whitespace run opened by a
newline. -/
def hasNlWsNlGo : Bool → List Char → Bool
  | _, [] => false
  | inRun, c :: rest =>
      if c = '\n' then (if inRun then true else hasNlWsNlGo true rest)
      else if isPySpace c then hasNlWsNlGo inRun rest
      else hasNlWsNlGo false rest

/-- Whether the web normalization regex matches anywhere in `s`. -/
def hasNlWsNl (s : String) : Bool := hasNlWsNlGo false s.data

/-!  src/app.py `extract_filename_and_clean_summary`. -/

/-- Python `\w` for the filename allow-lists, modelled as ASCII alphanumerics
plus underscore (the unicode word characters outside this range other than
the separately allowed CJK block do not occur in any statement below). -/
def isWordChar (c : Char) : Bool := c.isAlphanum || c = '_'

/-- Character class `[\w一-龥\-\s]` of the title sanitizer. -/
def allowedTitleChar (c : Char) : Bool :=
  isWordChar c || ('一' ≤ c && c ≤ '龥') || c = '-' || isPySpace c

/-- Character class `[\w一-龥]` of the fallback sanitizer. -/
def allowedFallbackChar (c : Char) : Bool :=
  isWordChar c || ('一' ≤ c && c ≤ '龥')

/-- `re.sub(r"[^ALLOWED]+", "_", s)`: every maximal run of disallowed
characters becomes a single underscore.  The Bool records whether the
previous character was part of a disallowed run. -/
def sanitizeGo (allowed : Char → Bool) : Bool → List Char → List Char
  | _, [] => []
  | prevBad, c :: rest =>
      if allowed c then c :: sanitizeGo allowed false rest
      else if prevBad then sanitizeGo allowed true rest
      else '_' :: sanitizeGo allowed true rest

/-- `re.sub` against an allow-list character class, runs collapsed to `_`. -/
def sanitizeRuns (allowed : Char → Bool) (l : List Char) : List Char :=
  sanitizeGo allowed false l

/-- Whether `re.search(r"^# 檔名：(.+)", stripped)` matches: without
re.MULTILINE the `^` anchors at the start of the string only, and `(.+)`
needs at least one character that is not a newline. -/
def titleMatches (stripped : String) : Bool :=
  "# 檔名：".data.isPrefixOf stripped.data &&
    (match stripped.data.drop 5 with
     | c :: _ => !(c = '\n')
     | [] => false)

/-- The `(.+)` capture group: the rest of the first line. -/
def titleCapture (stripped : String) : String :=
  ⟨(stripped.data.drop 5).takeWhile (fun c => !(c = '\n'))⟩

/-- src/app.py `extract_filename_and_clean_summary`: derive the output file
name from the generated summary, returning (filename, cleaned summary). -/
def extract_filename_and_clean_summary (summary_text : String) : String × String :=
  let stripped := pyStrip summary_text
  if titleMatches stripped then
    let raw_name := pyStrip (titleCapture stripped)
    let filename : String := ⟨(pyStripL (sanitizeRuns allowedTitleChar raw_name.data)).take 50⟩
    (filename, summary_text)
  else
    let first_line : String := ⟨(pyStrip summary_text).data.takeWhile (fun c => !(c = '\n'))⟩
    let clean_line : String := ⟨sanitizeRuns allowedFallbackChar first_line.data⟩
    let filename := if clean_line = "" then "summary_output" else ⟨clean_line.data.take 30⟩
    (filename, summary_text)

/-!  Data model: the Run State (src/main.py `OmniState`) and the partial
update dictionary a node returns.  LangGraph merges a returned dictionary
into the state: `logs` is declared `Annotated[List[str], operator.add]`
(line 34 of src/main.py), so its entries are appended; every other field is
overwritten when its key is present in the returned dictionary. -/

/-- Handle returned by the upload backend (`genai.upload_file`). -/
structure MediaFile where
  name : String
  uri : String
  mimeType : String
deriving DecidableEq

/-- The remote status of an uploaded file once it leaves PROCESSING. -/
inductive FileStatus
  | ready
  | failed
deriving DecidableEq

/-- src/main.py `OmniState`. -/
structure OmniState where
  input_text : String
  source_type : String
  content : Option String
  summary : Option String
  error : Option String
  file_obj : Option MediaFile
  api_key : Option String
  logs : List String
deriving DecidableEq

/-- A partial state update, as returned by a node: `none` means the key is
absent from the returned dictionary, `some v` means the key is present with
value `v`. -/
structure StateUpdate where
  source_type : Option String := none
  content : Option (Option String) := none
  summary : Option (Option String) := none
  error : Option (Option String) := none
  file_obj : Option (Option MediaFile) := none
  logs : List String := []
deriving DecidableEq

/-- LangGraph state merge: `logs` appends (operator.add), scalar keys
overwrite when present; nodes never write `input_text` or `api_key`. -/
def applyUpdate (s : OmniState) (u : StateUpdate) : OmniState :=
  { input_text := s.input_text
    source_type := u.source_type.getD s.source_type
    content := u.content.getD s.content
    summary := u.summary.getD s.summary
    error := u.error.getD s.error
    file_obj := u.file_obj.getD s.file_obj
    api_key := s.api_key
    logs := s.logs ++ u.logs }

/-- src/main.py `analyze_input_node`. -/
def analyze_input_node (s : OmniState) : StateUpdate :=
  let st := detect_source_type s.input_text
  { source_type := some st
    logs := ["--- [節點 1] 分析輸入 ---\n偵測結果: " ++ st] }

/-- src/main.py `load_text_node`. -/
def load_text_node (s : OmniState) : StateUpdate :=
  { content := some (some s.input_text)
    error := some none
    logs := ["--- [節點 2-C] 處理純文字 ---"] }

/-- Environment of the web extractor: the external page fetch either raises
(with a message) or returns the list of fetched documents, each given by its
page text. -/
structure WebEnv where
  fetch : Except String (List String)

/-- src/main.py `load_web_node`. -/
def load_web_node (env : WebEnv) (_s : OmniState) : StateUpdate :=
  let hdr := "--- [節點 2-B] 處理網頁 ---"
  match env.fetch with
  | .error msg =>
      { error := some (some msg), content := some none
        logs := [hdr, "❌ 網頁處理失敗: " ++ msg] }
  | .ok [] =>
      { error := some (some "網頁抓取為空"), content := some none
        logs := [hdr, "❌ 網頁抓取為空"] }
  | .ok (d :: _) =>
      let clean := normalize_newlines d
      { content := some (some clean), error := some none
        logs := [hdr, "✅ 成功抓取網頁，長度: " ++ toString clean.length ++ " 字"] }

/-!  Video extractor (src/main.py `load_youtube_node`).  The filesystem is
the list of names in the working directory; the run-unique artifact prefix
(`sub_{uuid}`) and Plan B audio name (`audio_{uuid}.m4a`) are parameters. -/

/-- The filesystem: names present in the working directory. -/
abbrev FS := List String

/-- Environment of the video extractor. -/
structure VideoEnv where
  /-- The process-wide default credential (`MY_GEMINI_KEY`). -/
  defaultKey : Option String
  /-- `some msg`: the subtitle download raises with that message. -/
  subRaises : Option String
  /-- Names of the files the subtitle download creates on disk (also the
  partial artifacts present when it raises). -/
  subFiles : List String
  /-- Contents, as a list of lines, of a file on disk. -/
  fileLines : String → List String
  /-- Whether `os.remove` succeeds for a given name (false: it raises). -/
  removeOk : String → Bool
  /-- `some msg`: the Plan B audio download raises with that message. -/
  audioRaises : Option String
  /-- Result of `genai.upload_file`: a handle, or a raised message. -/
  uploaded : Except String MediaFile

/-- Message carried by a raised `os.remove` failure. -/
def removeErrMsg (f : String) : String := "cannot remove " ++ f

/-- The filter of src/main.py line 111-115: names with the run prefix and a
`.vtt` suffix. -/
def vttNamed (pfx f : String) : Bool :=
  pfx.data.isPrefixOf f.data && ".vtt".data.isSuffixOf f.data

/-- The unprotected deletion loop of src/main.py lines 139-140: remove the
listed files one by one; the first failing removal raises, leaving the
earlier removals done. -/
def removeSeq (l : List String) (ok : String → Bool) (fs : FS) : FS × Option String :=
  match l with
  | [] => (fs, none)
  | f :: rest =>
      if ok f then removeSeq rest ok (fs.erase f)
      else (fs, some (removeErrMsg f))

/-- The swallowing cleanup of src/main.py lines 162-167: remove every file
with the run prefix, ignoring removal failures. -/
def swallowRemove (pfx : String) (ok : String → Bool) (fs : FS) : FS :=
  fs.filter (fun f => !(pfx.data.isPrefixOf f.data && ok f))

/-- Source marker prefixed to an accepted Plan A transcript. -/
def subtitleMarker : String := "【影片字幕】：\n"

/-- Plan A of `load_youtube_node` (src/main.py lines 105-167): either an
accepted result (`Sum.inl`: the returned update and final filesystem) or a
fall-through to Plan B (`Sum.inr`: accumulated logs and filesystem). -/
def planA (env : VideoEnv) (pfx : String) (fs : FS) (logs : List String) :
    (StateUpdate × FS) ⊕ (List String × FS) :=
  let fs1 := fs ++ env.subFiles
  let handler := fun (msg : String) (fsh : FS) (logsh : List String) =>
    (logsh ++ ["⚠️ Plan A 字幕下載失敗: " ++ msg],
     swallowRemove pfx env.removeOk fsh)
  match env.subRaises with
  | some msg => .inr (handler msg fs1 logs)
  | none =>
    match fs1.filter (vttNamed pfx) with
    | [] => .inr (logs ++ ["⚠️ yt-dlp 執行完畢但未發現字幕檔 (可能該影片無字幕)。"], fs1)
    | sub_file :: rest =>
      let logs1 := logs ++ ["✅ 成功下載字幕檔: " ++ sub_file]
      let clean_text := cleanVtt (env.fileLines sub_file)
      match removeSeq (sub_file :: rest) env.removeOk fs1 with
      | (fs2, some msg) => .inr (handler msg fs2 logs1)
      | (fs2, none) =>
        let full_transcript := String.intercalate "\n" clean_text
        if 50 < full_transcript.length then
          .inl ({ content := some (some (subtitleMarker ++ full_transcript))
                  file_obj := some none
                  error := some none
                  logs := logs1 ++ ["✅ 字幕清洗完成，長度: " ++
                    toString full_transcript.length ++ " 字"] }, fs2)
        else .inr (logs1 ++ ["⚠️ 下載的字幕內容過短，視為失敗。"], fs2)

/-- The Plan B missing-credential message. -/
def noKeyMsg : String := "無字幕且未提供 API Key，無法進行音訊處理。"

/-- Plan B of `load_youtube_node` (src/main.py lines 169-197): audio
download, upload, and deletion of the local temporary artifact. -/
def planB (env : VideoEnv) (aName : String) (ck : Option String)
    (logs : List String) (fs : FS) : StateUpdate × FS :=
  if !truthyS ck then
    ({ error := some (some noKeyMsg), content := some none
       logs := logs ++ ["❌ " ++ noKeyMsg] }, fs)
  else
    let logs1 := logs ++ ["⚠️ 啟動 Plan B：下載音訊 (Gemini 聽力模式)..."]
    match env.audioRaises with
    | some msg =>
        ({ error := some (some msg), content := some none, file_obj := some none
           logs := logs1 ++ ["❌ YouTube 音訊處理也失敗: " ++ msg] }, fs)
    | none =>
      let fs1 := fs ++ [aName]
      let logs2 := logs1 ++ ["音訊下載完成，正在上傳到 Gemini..."]
      let fail : String → FS → StateUpdate × FS := fun msg fsf =>
        ({ error := some (some msg), content := some none, file_obj := some none
           logs := logs2 ++ ["❌ YouTube 音訊處理也失敗: " ++ msg] }, fsf)
      match env.uploaded with
      | .error msg => fail msg fs1
      | .ok audio_file =>
        if aName ∈ fs1 then
          if env.removeOk aName then
            ({ content := some none, file_obj := some (some audio_file)
               error := some none
               logs := logs2 ++ ["✅ 上傳成功 (URI: " ++ audio_file.uri ++ ")"] },
             fs1.erase aName)
          else fail (removeErrMsg aName) fs1
        else
          ({ content := some none, file_obj := some (some audio_file)
             error := some none
             logs := logs2 ++ ["✅ 上傳成功 (URI: " ++ audio_file.uri ++ ")"] }, fs1)

/-- The credential resolved at node entry: the run override if truthy, else
the process default (`state.get("api_key") or default_api_key`). -/
def resolveKey (apiKey defaultKey : Option String) : Option String :=
  if truthyS apiKey then apiKey else defaultKey

/-- src/main.py `load_youtube_node`: Plan A, falling through to Plan B. -/
def load_youtube_node (env : VideoEnv) (pfx aName : String) (s : OmniState)
    (fs : FS) : StateUpdate × FS :=
  let ck := resolveKey s.api_key env.defaultKey
  let logs0 := ["--- [節點 2-A] 處理 YouTube ---", "嘗試使用 yt-dlp 下載字幕 (Plan A)..."]
  match planA env pfx fs logs0 with
  | .inl done => done
  | .inr (logs, fs1) => planB env aName ck logs fs1

/-!  Summary generator (src/main.py `generate_summary_node`).  The remote
poll loop (`while file_obj.state.name == "PROCESSING"`) is modelled by the
first non-PROCESSING status the environment reports; the generation backend
(`llm.invoke`) is a function from the assembled request to either the
returned text or a raised message. -/

/-- The request assembled for the generation backend: the audio mode sends
the prompt plus a media reference (mime type and URI), the text mode sends a
single text prompt. -/
inductive GenRequest
  | audio (prompt : String) (mimeType : String) (uri : String)
  | text (prompt : String)
deriving DecidableEq

/-- Environment of the summary generator. -/
structure GenEnv where
  /-- The process-wide default credential (`MY_GEMINI_KEY`). -/
  defaultKey : Option String
  /-- The first non-PROCESSING remote status of the uploaded file. -/
  finalStatus : FileStatus
  /-- `llm.invoke`: returns the generated text or raises a message. -/
  backend : GenRequest → Except String String

/-- Result of the generator node: the returned update, plus whether the
generation backend (`llm.invoke`) was actually called. -/
structure GenResult where
  update : StateUpdate
  invoked : Bool
deriving DecidableEq

/-- The fixed instruction template of src/main.py lines 261-272. -/
def base_requirements : String :=
  "你是一位全能的資訊整理專家。請為我撰寫一份「懶人包摘要」。" ++
  "\n\n【要求】：\n" ++
  "1. **檔名指令(重要)**：請根據內容，取一個最適合存檔的檔名。並在回應的**第一行**，嚴格依照此格式輸出：`# 檔名：[你的檔名]`。\n" ++
  "2. **直接輸出**：請直接開始輸出內容，**絕對不要**有任何開場白（如「好的」、「這是我整理的...」等廢話）。\n" ++
  "3. **語言**：全部翻譯並整理成 **繁體中文**。\n" ++
  "4. **格式**：\n" ++
  "   - **一言以蔽之**：用一句話總結核心主旨。\n" ++
  "   - **關鍵重點**：列出 3-5 個最重要的資訊點 (Bullet points)。\n" ++
  "   - **詳細摘要**：針對內容進行邏輯分段的詳細說明。\n" ++
  "5. **語氣**：專業但輕鬆。"

/-- The masked credential shown in the log (`key[:4] + "*"*10 + key[-4:]`). -/
def maskKey (k : String) : String :=
  k.take 4 ++ "**********" ++ k.drop (k.length - 4)

/-- src/main.py `generate_summary_node`. -/
def generate_summary_node (env : GenEnv) (s : OmniState) : GenResult :=
  let logs := ["\n--- [節點 3] AI 正在撰寫摘要 ---"]
  if truthyS s.error && s.file_obj.isNone then
    { update := { summary := some (some ("無法生成: " ++ s.error.getD ""))
                  logs := logs ++ ["偵測到前一步驟錯誤，跳過。"] }
      invoked := false }
  else
    let ckO := resolveKey s.api_key env.defaultKey
    if !truthyS ckO then
      { update := { summary := some (some "錯誤：未設定 API Key")
                    error := some (some "No API Key")
                    logs := logs ++ ["❌ 錯誤：找不到 API Key"] }
        invoked := false }
    else
      let ck := ckO.getD ""
      let key_source := if truthyS s.api_key then "手動輸入" else "預設 .env"
      let logs := logs ++ ["🔑 使用 Key: " ++ maskKey ck ++ " (" ++ key_source ++ ")"]
      let catchUpd : String → List String → StateUpdate := fun msg lgs =>
        { summary := some (some ("AI 生成失敗: " ++ msg))
          error := some (some msg)
          logs := lgs ++ ["❌ AI 生成失敗: " ++ msg] }
      match s.file_obj with
      | some file_obj =>
          let logs := logs ++ ["模式：聽覺處理 (Audio)"]
          match env.finalStatus with
          | .failed => { update := catchUpd "Google 處理檔案失敗" logs, invoked := false }
          | .ready =>
              let logs := logs ++ ["🚀 正在呼叫 Gemini 生成摘要..."]
              let req := GenRequest.audio (base_requirements ++ "\n\n請根據附檔音訊摘要。")
                file_obj.mimeType file_obj.uri
              match env.backend req with
              | .ok resp =>
                  { update := { summary := some (some resp)
                                logs := logs ++ ["✅ 摘要生成完成！"] }
                    invoked := true }
              | .error msg => { update := catchUpd msg logs, invoked := true }
      | none =>
          if truthyS s.content then
            let logs := logs ++ ["模式：文字閱讀 (Text)", "🚀 正在呼叫 Gemini 生成摘要..."]
            let req := GenRequest.text (base_requirements ++ "\n\n來源：" ++
              s.source_type ++ "\n【內容】：\n" ++ s.content.getD "")
            match env.backend req with
            | .ok resp =>
                { update := { summary := some (some resp)
                              logs := logs ++ ["✅ 摘要生成完成！"] }
                  invoked := true }
            | .error msg => { update := catchUpd msg logs, invoked := true }
          else
            { update := { summary := some (some "無內容可處理"), logs := logs }
              invoked := false }

/-- src/main.py `route_based_on_source`. -/
def route_based_on_source (s : OmniState) : String :=
  if s.source_type = "youtube" then "process_youtube"
  else if s.source_type = "web" then "process_web"
  else "process_text"

/-- One full run of the compiled workflow (src/main.py lines 332-354):
analyze, route to exactly one extractor, summarize, merging each returned
update into the state in step order. -/
def runPipeline (venv : VideoEnv) (wenv : WebEnv) (genv : GenEnv)
    (pfx aName : String) (s0 : OmniState) (fs : FS) : OmniState × FS :=
  let s1 := applyUpdate s0 (analyze_input_node s0)
  let step2 : StateUpdate × FS :=
    if route_based_on_source s1 = "process_youtube" then
      load_youtube_node venv pfx aName s1 fs
    else if route_based_on_source s1 = "process_web" then
      (load_web_node wenv s1, fs)
    else (load_text_node s1, fs)
  let s2 := applyUpdate s1 step2.1
  let s3 := applyUpdate s2 (generate_summary_node genv s2).update
  (s3, step2.2)

/-!  Claims. -/

/-- Claim C5: the classifier is a deterministic total function of the
case-folded, trimmed input — with a video-host marker it returns the video
category (spelled "youtube" in the source), with an `http(s)://` prefix and
no marker it returns "web", otherwise "text", and it always returns one of
those three strings. -/
theorem claim_C5 (s : String) :
    (detect_source_type s = "youtube" ∨ detect_source_type s = "web" ∨
      detect_source_type s = "text") ∧
    (hasVideoMarker (pyLower (pyStrip s)) = true →
      detect_source_type s = "youtube") ∧
    (hasVideoMarker (pyLower (pyStrip s)) = false →
      ("http://".data.isPrefixOf (pyLower (pyStrip s)).data ||
        "https://".data.isPrefixOf (pyLower (pyStrip s)).data) = true →
      detect_source_type s = "web") ∧
    (hasVideoMarker (pyLower (pyStrip s)) = false →
      ("http://".data.isPrefixOf (pyLower (pyStrip s)).data ||
        "https://".data.isPrefixOf (pyLower (pyStrip s)).data) = false →
      detect_source_type s = "text") := by
  unfold detect_source_type
  by_cases h1 : hasVideoMarker (pyLower (pyStrip s)) <;>
    by_cases h2 : ("http://".data.isPrefixOf (pyLower (pyStrip s)).data ||
      "https://".data.isPrefixOf (pyLower (pyStrip s)).data) = true <;>
    simp_all

/-- Witness for C5 at concrete inputs of each category. -/
theorem claim_C5_witness :
    detect_source_type "  HTTPS://YouTu.be/abc " = "youtube" ∧
    detect_source_type "https://example.com" = "web" ∧
    detect_source_type "hello world" = "text" :=
  ⟨(claim_C5 "  HTTPS://YouTu.be/abc ").2.1 (by decide),
   (claim_C5 "https://example.com").2.2.1 (by decide) (by decide),
   (claim_C5 "hello world").2.2.2 (by decide) (by decide)⟩

/-- The previous log is a prefix of the log after any merge. -/
theorem logs_prefix_applyUpdate (s : OmniState) (u : StateUpdate) :
    s.logs <+: (applyUpdate s u).logs :=
  ⟨u.logs, rfl⟩

/-- Claim C8: merging a step output into the Run State appends the log
entries (the previous log is an unchanged prefix) while every scalar field
is overwritten when written and kept otherwise; over a whole pipeline run
the initial log is a prefix of the final log. -/
theorem claim_C8 :
    (∀ (s : OmniState) (u : StateUpdate),
      (applyUpdate s u).logs = s.logs ++ u.logs ∧
      s.logs <+: (applyUpdate s u).logs ∧
      (applyUpdate s u).content = u.content.getD s.content ∧
      (applyUpdate s u).summary = u.summary.getD s.summary ∧
      (applyUpdate s u).error = u.error.getD s.error ∧
      (applyUpdate s u).file_obj = u.file_obj.getD s.file_obj ∧
      (applyUpdate s u).source_type = u.source_type.getD s.source_type) ∧
    (∀ venv wenv genv pfx aName s0 fs,
      s0.logs <+: (runPipeline venv wenv genv pfx aName s0 fs).1.logs) := by
  refine ⟨fun s u => ⟨rfl, ⟨u.logs, rfl⟩, rfl, rfl, rfl, rfl, rfl⟩, ?_⟩
  intro venv wenv genv pfx aName s0 fs
  exact ((logs_prefix_applyUpdate s0 _).trans
    (logs_prefix_applyUpdate _ _)).trans (logs_prefix_applyUpdate _ _)

/-- Claim C9 counterexample: the allow-list `[\w一-龥\-\s]` keeps spaces, so
the summary first line `# 檔名：My Report` yields the filename `My Report`,
not the `My_Report` name the claim asserts. -/
theorem claim_C9_counterexample :
    (extract_filename_and_clean_summary "# 檔名：My Report").1 = "My Report" ∧
    (extract_filename_and_clean_summary "# 檔名：My Report").1 ≠ "My_Report" := by
  constructor
  · decide
  · decide

/-- Claim C9 as amended: a summary honoring the title convention gets the
captured name sanitized against the allow-list of word characters, the CJK
block, hyphens AND whitespace (spaces are allowed and kept, so `My Report`
stays `My Report`; each disallowed run becomes one underscore), trimmed and
truncated to 50 characters; a summary not honoring it gets the fallback
name: its first line with every run outside word/CJK characters replaced by
an underscore, truncated to 30 characters, or `summary_output` when that is
empty; the derived name never exceeds 50 characters and the summary text is
returned unchanged. -/
theorem claim_C9 :
    (extract_filename_and_clean_summary "# 檔名：My Report").1 = "My Report" ∧
    (extract_filename_and_clean_summary "# 檔名：a?!b").1 = "a_b" ∧
    (extract_filename_and_clean_summary "My summary!\nrest").1 = "My_summary_" ∧
    (extract_filename_and_clean_summary "x").1 = "x" ∧
    (extract_filename_and_clean_summary
      ("# 檔名：" ++ String.mk (List.replicate 60 'a'))).1.length = 50 ∧
    (∀ s, (extract_filename_and_clean_summary s).1.length ≤ 50) ∧
    (∀ s, (extract_filename_and_clean_summary s).2 = s) := by
  refine ⟨by decide, by decide, by decide, by decide, by decide, ?_, ?_⟩
  · intro s
    simp only [extract_filename_and_clean_summary]
    split
    · simp only [String.length, List.length_take]
      omega
    · split
      · show "summary_output".length ≤ 50
        decide
      · simp only [String.length, List.length_take]
        omega
  · intro s
    simp only [extract_filename_and_clean_summary]
    split
    · rfl
    · rfl

/-- An initial Run State as the front end builds it (src/app.py lines 44-54). -/
def initState (input : String) (key : Option String) : OmniState :=
  { input_text := input, source_type := "", content := none, summary := none
    error := none, file_obj := none, api_key := key, logs := [] }

/-- On text where the `\n\s*\n` regex has no match, the normalization scan
is the identity (stated for both reachable scanner states). -/
theorem nlSubGo_no_match (l : List Char) :
    (hasNlWsNlGo false l = false → nlSubGo .normal l = l) ∧
    (∀ buf, hasNlWsNlGo true l = false →
      nlSubGo (.sawNl buf) l = '\n' :: (buf.reverse ++ l)) := by
  induction l with
  | nil => exact ⟨fun _ => rfl, fun buf _ => by simp [nlSubGo]⟩
  | cons c rest ih =>
    constructor
    · intro h
      by_cases hc : c = '\n'
      · subst hc
        simp only [hasNlWsNlGo, if_pos] at h
        simp [nlSubGo, ih.2 [] h]
      · have h2 : hasNlWsNlGo false rest = false := by
          by_cases hs : isPySpace c <;> simpa [hasNlWsNlGo, hc, hs] using h
        simp [nlSubGo, hc, ih.1 h2]
    · intro buf h
      by_cases hc : c = '\n'
      · subst hc
        simp [hasNlWsNlGo] at h
      · by_cases hs : isPySpace c
        · have h2 : hasNlWsNlGo true rest = false := by
            simpa [hasNlWsNlGo, hc, hs] using h
          simp [nlSubGo, hc, hs, ih.2 (c :: buf) h2]
        · have h2 : hasNlWsNlGo false rest = false := by
            simpa [hasNlWsNlGo, hc, hs] using h
          simp [nlSubGo, hc, hs, ih.1 h2]

/-- Once two newlines of a whitespace run have been read, any further pure
newline run collapses into the single replacement `\n\n`. -/
theorem nlSubGo_matched_replicate (m : Nat) :
    nlSubGo (.matched []) (List.replicate m '\n') = ['\n', '\n'] := by
  induction m with
  | zero => rfl
  | succ n ih => simpa [List.replicate_succ, nlSubGo] using ih

/-- Claim C6 counterexample: the fetched text `a\n \nb` contains no run of
three or more consecutive newline characters, yet the web extractor rewrites
it (the regex `\n\s*\n` also matches newline-space-newline), so the claim
that all other text is left unchanged fails. -/
theorem claim_C6_counterexample :
    (load_web_node ⟨.ok ["a\n \nb"]⟩ (initState "u" none)).content =
      some (some "a\n\nb") ∧
    isSubList "\n\n\n".data "a\n \nb".data = false ∧
    "a\n\nb" ≠ "a\n \nb" := by
  refine ⟨by decide, by decide, by decide⟩

/-- Claim C6 as amended: on a successful fetch the extractor sets `content`
to the document text with every leftmost occurrence of newline, optional
whitespace, newline replaced by exactly two newlines (so a run of two or
more newlines collapses to two, and whitespace lying between two newlines is
dropped with them); text without such an occurrence is unchanged; an empty
fetch fails with the empty-fetch error and `content` is cleared, and a
raised fetch surfaces its message as `error`. -/
theorem claim_C6 :
    (∀ (env : WebEnv) (s : OmniState) (d : String) (rest : List String),
      env.fetch = .ok (d :: rest) →
      (load_web_node env s).content = some (some (normalize_newlines d)) ∧
      (load_web_node env s).error = some none) ∧
    (∀ (env : WebEnv) (s : OmniState), env.fetch = .ok [] →
      (load_web_node env s).error = some (some "網頁抓取為空") ∧
      (load_web_node env s).content = some none) ∧
    (∀ (env : WebEnv) (s : OmniState) (msg : String), env.fetch = .error msg →
      (load_web_node env s).error = some (some msg) ∧
      (load_web_node env s).content = some none) ∧
    (∀ t : String, hasNlWsNl t = false → normalize_newlines t = t) ∧
    (∀ k : Nat, normalize_newlines ⟨List.replicate (k + 2) '\n'⟩ = "\n\n") ∧
    normalize_newlines "a\n \nb" = "a\n\nb" := by
  refine ⟨?_, ?_, ?_, ?_, ?_, by decide⟩
  · intro env s d rest h
    constructor <;> simp [load_web_node, h]
  · intro env s h
    constructor <;> simp [load_web_node, h]
  · intro env s msg h
    constructor <;> simp [load_web_node, h]
  · intro t h
    show (⟨nlSubGo .normal t.data⟩ : String) = t
    rw [(nlSubGo_no_match t.data).1 h]
  · intro k
    show (⟨nlSubGo .normal (String.mk (List.replicate (k + 2) '\n')).data⟩ : String) = "\n\n"
    have h2 : nlSubGo .normal (List.replicate (k + 2) '\n') = ['\n', '\n'] := by
      simp [List.replicate_succ, nlSubGo, nlSubGo_matched_replicate k]
    simp only [h2]

/-- Witness for C6 at a concrete fetch and a concrete no-match text. -/
theorem claim_C6_witness :
    (load_web_node ⟨.ok ["x\n\n\n\ny"]⟩ (initState "u" none)).content =
      some (some "x\n\ny") ∧
    normalize_newlines "ab" = "ab" :=
  ⟨((claim_C6.1 ⟨.ok ["x\n\n\n\ny"]⟩ (initState "u" none) "x\n\n\n\ny" [] rfl).1).trans
      (by decide),
   claim_C6.2.2.2.1 "ab" (by decide)⟩

/-- Claim C10: the Plan A duplicate-line check compares the current raw
(stripped) line against the previously RETAINED line, which has already had
its markup tags removed; hence `hello` followed by `<c>hello</c>` keeps both
lines (as `hello`, `hello`), while literally identical consecutive lines are
suppressed. -/
theorem claim_C10 :
    (∀ (acc : List String) (raw : String),
      isSubList "-->".data (pyStrip raw).data = false →
      pyStrip raw ≠ "WEBVTT" →
      pyStrip raw ≠ "" →
      acc.getLast? = some (pyStrip raw) →
      cleanVttStep acc raw = acc) ∧
    (∀ (acc : List String) (raw : String),
      isSubList "-->".data (pyStrip raw).data = false →
      pyStrip raw ≠ "WEBVTT" →
      pyStrip raw ≠ "" →
      acc.getLast? ≠ some (pyStrip raw) →
      stripTags (pyStrip raw) ≠ "" →
      cleanVttStep acc raw = acc ++ [stripTags (pyStrip raw)]) ∧
    cleanVtt ["hello", "<c>hello</c>"] = ["hello", "hello"] ∧
    cleanVtt ["hello", "hello", "world"] = ["hello", "world"] ∧
    stripTags "<c>hello</c>" = "hello" := by
  refine ⟨?_, ?_, by decide, by decide, by decide⟩
  · intro acc raw h1 h2 h3 h4
    simp [cleanVttStep, h1, h2, h3, h4]
  · intro acc raw h1 h2 h3 h4 h5
    simp [cleanVttStep, h1, h2, h3, h4, h5]

/-- Witness for C10: the tag-masked duplicate is retained, the literal
duplicate is suppressed. -/
theorem claim_C10_witness :
    cleanVttStep ["hello"] "<c>hello</c>" = ["hello", "hello"] ∧
    cleanVttStep ["hello"] "hello" = ["hello"] :=
  ⟨(claim_C10.2.1 ["hello"] "<c>hello</c>" (by decide) (by decide) (by decide)
      (by decide) (by decide)).trans (by decide),
   claim_C10.1 ["hello"] "hello" (by decide) (by decide) (by decide) (by decide)⟩

/-- Every return path of the generator writes a summary string. -/
theorem gen_delivers (env : GenEnv) (s : OmniState) :
    ∃ r, (generate_summary_node env s).update.summary = some (some r) := by
  simp only [generate_summary_node]
  repeat' split
  all_goals exact ⟨_, rfl⟩

/-- A merged update whose summary key holds a string leaves the state with
a present summary. -/
theorem applyUpdate_summary_some (s : OmniState) (u : StateUpdate)
    (h : ∃ r, u.summary = some (some r)) :
    ∃ r, (applyUpdate s u).summary = some r := by
  obtain ⟨r, hr⟩ := h
  exact ⟨r, by simp [applyUpdate, hr]⟩

/-- Claim C1 counterexample: a state reaching the generator with no content,
no media handle and no prior error but also no resolvable credential gets the
missing-key summary with `error` SET, not the claimed nothing-to-summarize
summary with `error` unset. -/
theorem claim_C1_counterexample :
    (generate_summary_node ⟨none, .ready, fun _ => .ok "S"⟩
      (initState "t" none)).update.summary = some (some "錯誤：未設定 API Key") ∧
    (generate_summary_node ⟨none, .ready, fun _ => .ok "S"⟩
      (initState "t" none)).update.error = some (some "No API Key") ∧
    ("錯誤：未設定 API Key" : String) ≠ "無內容可處理" :=
  ⟨by decide, by decide, by decide⟩

/-- Claim C1 as amended: (1) with a truthy error and no media handle the
generator skips, produces the synthetic cannot-generate summary carrying the
error text, does not write `error` and never calls the backend; (2) with a
media handle present, a resolvable credential and a ready handle the backend
is invoked even when `error` is set; (3) with no truthy content, no handle,
no truthy error AND a resolvable credential, the summary is the synthetic
nothing-to-summarize message, `error` is not written and the backend is not
called (without a credential the missing-key branch fires instead). -/
theorem claim_C1 (env : GenEnv) (s : OmniState) :
    (∀ e : String, s.error = some e → e ≠ "" → s.file_obj = none →
      (generate_summary_node env s).update.summary =
        some (some ("無法生成: " ++ e)) ∧
      (generate_summary_node env s).update.error = none ∧
      (generate_summary_node env s).invoked = false) ∧
    (∀ f : MediaFile, s.file_obj = some f →
      truthyS (resolveKey s.api_key env.defaultKey) = true →
      env.finalStatus = .ready →
      (generate_summary_node env s).invoked = true) ∧
    (truthyS s.content = false → s.file_obj = none → truthyS s.error = false →
      truthyS (resolveKey s.api_key env.defaultKey) = true →
      (generate_summary_node env s).update.summary = some (some "無內容可處理") ∧
      (generate_summary_node env s).update.error = none ∧
      (generate_summary_node env s).invoked = false) := by
  refine ⟨?_, ?_, ?_⟩
  · intro e he hne hf
    have ht : truthyS (some e) = true := by simp [truthyS, hne]
    refine ⟨?_, ?_, ?_⟩ <;> simp [generate_summary_node, ht, hf, he]
  · intro f hf hk hs
    cases hb : env.backend (GenRequest.audio
        (base_requirements ++ "\n\n請根據附檔音訊摘要。") f.mimeType f.uri) <;>
      simp [generate_summary_node, hf, hk, hs, hb]
  · intro hc hf he hk
    refine ⟨?_, ?_, ?_⟩ <;> simp [generate_summary_node, hc, hf, he, hk]

/-- Witness for C1 at concrete generator states. -/
theorem claim_C1_witness :
    (generate_summary_node ⟨some "ABCDEFGH", .ready, fun _ => .ok "S"⟩
      { initState "t" none with error := some "boom" }).update.summary =
      some (some "無法生成: boom") ∧
    (generate_summary_node ⟨some "ABCDEFGH", .ready, fun _ => .ok "S"⟩
      { initState "t" none with
        error := some "boom",
        file_obj := some ⟨"f", "uri", "audio/mp4"⟩ }).invoked = true ∧
    (generate_summary_node ⟨some "ABCDEFGH", .ready, fun _ => .ok "S"⟩
      (initState "t" none)).update.summary = some (some "無內容可處理") :=
  ⟨((claim_C1 ⟨some "ABCDEFGH", .ready, fun _ => .ok "S"⟩
      { initState "t" none with error := some "boom" }).1 "boom" rfl
      (by decide) rfl).1,
   (claim_C1 ⟨some "ABCDEFGH", .ready, fun _ => .ok "S"⟩
      { initState "t" none with
        error := some "boom",
        file_obj := some ⟨"f", "uri", "audio/mp4"⟩ }).2.1
      ⟨"f", "uri", "audio/mp4"⟩ rfl (by decide) rfl,
   ((claim_C1 ⟨some "ABCDEFGH", .ready, fun _ => .ok "S"⟩
      (initState "t" none)).2.2 (by decide) rfl (by decide) (by decide)).1⟩

/-- Claim C7: every fault of the generation step is recovered locally — a
generator run always writes some summary string; a backend fault in text or
audio mode sets `error` to the fault message and the summary to the
synthetic generation-failed string carrying it; a media handle reaching the
failed remote status does the same with the fixed remote-failure message and
never invokes the backend; and a whole pipeline run always ends with a
present summary. -/
theorem claim_C7 :
    (∀ (env : GenEnv) (s : OmniState),
      ∃ r, (generate_summary_node env s).update.summary = some (some r)) ∧
    (∀ (env : GenEnv) (s : OmniState) (msg : String),
      s.file_obj = none → truthyS s.error = false →
      truthyS (resolveKey s.api_key env.defaultKey) = true →
      truthyS s.content = true →
      env.backend (GenRequest.text (base_requirements ++ "\n\n來源：" ++
        s.source_type ++ "\n【內容】：\n" ++ s.content.getD "")) = .error msg →
      (generate_summary_node env s).update.summary =
        some (some ("AI 生成失敗: " ++ msg)) ∧
      (generate_summary_node env s).update.error = some (some msg)) ∧
    (∀ (env : GenEnv) (s : OmniState) (f : MediaFile) (msg : String),
      s.file_obj = some f →
      truthyS (resolveKey s.api_key env.defaultKey) = true →
      env.finalStatus = .ready →
      env.backend (GenRequest.audio (base_requirements ++ "\n\n請根據附檔音訊摘要。")
        f.mimeType f.uri) = .error msg →
      (generate_summary_node env s).update.summary =
        some (some ("AI 生成失敗: " ++ msg)) ∧
      (generate_summary_node env s).update.error = some (some msg)) ∧
    (∀ (env : GenEnv) (s : OmniState) (f : MediaFile),
      s.file_obj = some f →
      truthyS (resolveKey s.api_key env.defaultKey) = true →
      env.finalStatus = .failed →
      (generate_summary_node env s).update.summary =
        some (some "AI 生成失敗: Google 處理檔案失敗") ∧
      (generate_summary_node env s).update.error =
        some (some "Google 處理檔案失敗") ∧
      (generate_summary_node env s).invoked = false) ∧
    (∀ venv wenv genv pfx aName (s0 : OmniState) fs,
      ∃ r, (runPipeline venv wenv genv pfx aName s0 fs).1.summary = some r) := by
  refine ⟨gen_delivers, ?_, ?_, ?_, ?_⟩
  · intro env s msg hf he hk hc hb
    constructor <;> simp [generate_summary_node, hf, he, hk, hc, hb]
  · intro env s f msg hf hk hs hb
    constructor <;> simp [generate_summary_node, hf, hk, hs, hb]
  · intro env s f hf hk hs
    refine ⟨?_, ?_, ?_⟩ <;> simp [generate_summary_node, hf, hk, hs]
  · intro venv wenv genv pfx aName s0 fs
    exact applyUpdate_summary_some _ _ (gen_delivers genv _)

/-- Witness for C7: a concrete backend fault in text mode and a concrete
failed remote status. -/
theorem claim_C7_witness :
    (generate_summary_node ⟨some "ABCDEFGH", .ready, fun _ => .error "quota"⟩
      { initState "t" none with
        content := some "hi",
        source_type := "text" }).update.summary =
      some (some "AI 生成失敗: quota") ∧
    (generate_summary_node ⟨some "ABCDEFGH", .failed, fun _ => .ok "S"⟩
      { initState "t" none with
        file_obj := some ⟨"f", "uri", "audio/mp4"⟩ }).update.error =
      some (some "Google 處理檔案失敗") :=
  ⟨(claim_C7.2.1 ⟨some "ABCDEFGH", .ready, fun _ => .error "quota"⟩
      { initState "t" none with
        content := some "hi",
        source_type := "text" }
      "quota" rfl (by decide) (by decide) (by decide) rfl).1,
   (claim_C7.2.2.2.1 ⟨some "ABCDEFGH", .failed, fun _ => .ok "S"⟩
      { initState "t" none with file_obj := some ⟨"f", "uri", "audio/mp4"⟩ }
      ⟨"f", "uri", "audio/mp4"⟩ rfl (by decide) rfl).2.1⟩

/-!  Filesystem lemmas for the video extractor claims. -/

/-- When every removal succeeds, the unprotected deletion loop removes the
whole list and raises nothing. -/
theorem removeSeq_all_ok (l : List String) (ok : String → Bool) (fs : FS)
    (h : ∀ f ∈ l, ok f = true) :
    removeSeq l ok fs = (l.foldl (fun a f => a.erase f) fs, none) := by
  induction l generalizing fs with
  | nil => rfl
  | cons f rest ih =>
    have hf : ok f = true := h f (by simp)
    simp [removeSeq, hf, ih (fs.erase f) (fun g hg => h g (by simp [hg]))]

/-- A file surviving the sequential erase of `l` from a duplicate-free
listing was present before and is not among the erased names. -/
theorem mem_foldl_erase (l : List String) (fs : FS) (hnd : fs.Nodup)
    (x : String) (hx : x ∈ l.foldl (fun a f => a.erase f) fs) :
    x ∈ fs ∧ x ∉ l := by
  induction l generalizing fs with
  | nil => simpa using hx
  | cons f rest ih =>
    simp only [List.foldl_cons] at hx
    obtain ⟨h3, h4⟩ := ih (fs.erase f) (hnd.erase f) hx
    have h5 := hnd.mem_erase_iff.1 h3
    exact ⟨h5.2, by simp [h5.1, h4]⟩

/-- The swallowing cleanup removes every prefix-named file when every
removal succeeds. -/
theorem swallowRemove_clears (pfx : String) (ok : String → Bool) (fs : FS)
    (hok : ∀ f, ok f = true) :
    ∀ x ∈ swallowRemove pfx ok fs, pfx.data.isPrefixOf x.data = false := by
  intro x hx
  have h := List.of_mem_filter hx
  simpa [hok x] using h

/-- Whatever Plan B does, the files it can leave behind are the files it was
given plus possibly the audio temp artifact. -/
theorem planB_fs_subset (env : VideoEnv) (aName : String) (ck : Option String)
    (logs : List String) (fs : FS) :
    ∀ f ∈ (planB env aName ck logs fs).2, f ∈ fs ∨ f = aName := by
  intro f hf
  by_cases hk : truthyS ck
  case neg => simp [planB, hk] at hf; exact Or.inl hf
  case pos =>
    cases har : env.audioRaises with
    | some msg =>
        simp [planB, hk, har] at hf
        exact Or.inl hf
    | none =>
        cases hup : env.uploaded with
        | error msg =>
            simp [planB, hk, har, hup] at hf
            exact hf
        | ok file =>
            by_cases hro : env.removeOk aName
            · simp [planB, hk, har, hup, hro] at hf
              have h2 := List.mem_of_mem_erase hf
              simpa using h2
            · simp [planB, hk, har, hup, hro] at hf
              exact hf

/-- After erasing every name of `generated`, no file satisfying the
collection property `hpref` (membership forces membership in `generated`)
remains with the prefix. -/
theorem foldl_erase_no_prefix (pfx : String) (fs1 generated : List String)
    (h4 : fs1.Nodup)
    (hpref : ∀ f ∈ fs1, pfx.data.isPrefixOf f.data = true → f ∈ generated) :
    ∀ f ∈ generated.foldl (fun a g => a.erase g) fs1,
      pfx.data.isPrefixOf f.data = false := by
  intro f hf
  obtain ⟨hin, hnotin⟩ := mem_foldl_erase generated fs1 h4 f hf
  by_contra hcon
  simp only [Bool.not_eq_false] at hcon
  exact hnotin (hpref f hin hcon)

/-- The filesystem component of a Plan A outcome. -/
def planAFs : (StateUpdate × FS) ⊕ (List String × FS) → FS
  | .inl r => r.2
  | .inr r => r.2

/-- Plan A leaves no prefix-named artifact behind on any of its exit paths
(success, rejection, no artifacts, raise), provided the listing is
duplicate-free, the pre-existing files and the created artifacts are named
as assumed and removals succeed. -/
theorem planA_fs_no_prefix (env : VideoEnv) (pfx : String) (fs : FS)
    (logs : List String)
    (h0 : ∀ f ∈ fs, pfx.data.isPrefixOf f.data = false)
    (h1 : ∀ f ∈ env.subFiles,
      pfx.data.isPrefixOf f.data = true ∧ ".vtt".data.isSuffixOf f.data = true)
    (h3 : ∀ f, env.removeOk f = true)
    (h4 : (fs ++ env.subFiles).Nodup) :
    ∀ f ∈ planAFs (planA env pfx fs logs),
      pfx.data.isPrefixOf f.data = false := by
  intro f hf
  have hpref : ∀ g ∈ fs ++ env.subFiles, pfx.data.isPrefixOf g.data = true →
      g ∈ (fs ++ env.subFiles).filter (vttNamed pfx) := by
    intro g hg hp
    rcases List.mem_append.1 hg with h | h
    · rw [h0 g h] at hp; cases hp
    · exact List.mem_filter.2 ⟨hg, by simp [vttNamed, (h1 g h).1, (h1 g h).2]⟩
  cases hsub : env.subRaises with
  | some msg =>
      simp only [planA, hsub, planAFs] at hf
      exact swallowRemove_clears pfx env.removeOk _ h3 f hf
  | none =>
      cases hg : (fs ++ env.subFiles).filter (vttNamed pfx) with
      | nil =>
          simp only [planA, hsub, hg, planAFs] at hf
          rcases List.mem_append.1 hf with h | h
          · exact h0 f h
          · exfalso
            have hin := hpref f (List.mem_append.2 (Or.inr h)) (h1 f h).1
            rw [hg] at hin
            exact absurd hin (List.not_mem_nil f)
      | cons sub_file rest =>
          rw [hg] at hpref
          simp only [planA, hsub, hg,
            removeSeq_all_ok (sub_file :: rest) env.removeOk _
              (fun g _ => h3 g)] at hf
          split at hf <;>
            · simp only [planAFs] at hf
              exact foldl_erase_no_prefix pfx _ _ h4 hpref f hf

/-- Claim C3: on every exit path of Plan A (accepted, rejected for a short
transcript, no artifacts found, or a raised fault), no artifact named with
the run prefix remains on disk after the extractor returns — assuming the
prefix is fresh (no pre-existing or audio file carries it), the subtitle
collaborator creates only prefix-named `.vtt` files, the listing is
duplicate-free and removals succeed; and a fault raised inside Plan A is
swallowed: the extractor continues into Plan B with the swallowing cleanup
applied, never propagating the fault (this part holds even when cleanup
removals themselves fail). -/
theorem claim_C3 :
    (∀ (env : VideoEnv) (pfx aName : String) (s : OmniState) (fs : FS),
      (∀ f ∈ fs, pfx.data.isPrefixOf f.data = false) →
      (∀ f ∈ env.subFiles,
        pfx.data.isPrefixOf f.data = true ∧ ".vtt".data.isSuffixOf f.data = true) →
      pfx.data.isPrefixOf aName.data = false →
      (∀ f, env.removeOk f = true) →
      (fs ++ env.subFiles).Nodup →
      ∀ f ∈ (load_youtube_node env pfx aName s fs).2,
        pfx.data.isPrefixOf f.data = false) ∧
    (∀ (env : VideoEnv) (pfx aName : String) (s : OmniState) (fs : FS)
      (msg : String), env.subRaises = some msg →
      load_youtube_node env pfx aName s fs =
        planB env aName (resolveKey s.api_key env.defaultKey)
          ["--- [節點 2-A] 處理 YouTube ---", "嘗試使用 yt-dlp 下載字幕 (Plan A)...",
            "⚠️ Plan A 字幕下載失敗: " ++ msg]
          (swallowRemove pfx env.removeOk (fs ++ env.subFiles))) := by
  constructor
  · intro env pfx aName s fs h0 h1 h2 h3 h4 f hf
    cases hres : planA env pfx fs
        ["--- [節點 2-A] 處理 YouTube ---", "嘗試使用 yt-dlp 下載字幕 (Plan A)..."] with
    | inl done =>
        simp only [load_youtube_node, hres] at hf
        have hA := planA_fs_no_prefix env pfx fs
          ["--- [節點 2-A] 處理 YouTube ---", "嘗試使用 yt-dlp 下載字幕 (Plan A)..."]
          h0 h1 h3 h4 f
        rw [hres] at hA
        exact hA hf
    | inr pr =>
        obtain ⟨lg, fs1⟩ := pr
        simp only [load_youtube_node, hres] at hf
        rcases planB_fs_subset env aName _ lg fs1 f hf with h | h
        · have hA := planA_fs_no_prefix env pfx fs
            ["--- [節點 2-A] 處理 YouTube ---", "嘗試使用 yt-dlp 下載字幕 (Plan A)..."]
            h0 h1 h3 h4 f
          rw [hres] at hA
          exact hA h
        · rw [h]; exact h2
  · intro env pfx aName s fs msg hsub
    simp [load_youtube_node, planA, hsub]

/-- Witness for C3: a concrete run whose Plan A rejects a short transcript
and whose Plan B upload faults; the subtitle artifact is not among the
leftover files. -/
def envC3 : VideoEnv :=
  { defaultKey := none, subRaises := none, subFiles := ["sub_ab.en.vtt"]
    fileLines := fun _ => ["short"], removeOk := fun _ => true
    audioRaises := none, uploaded := .error "net down" }

theorem claim_C3_witness :
    "sub_ab.en.vtt" ∉
      (load_youtube_node envC3 "sub_ab" "audio_q.m4a" (initState "u" (some "k")) []).2 := by
  intro hmem
  have h := claim_C3.1 envC3 "sub_ab" "audio_q.m4a" (initState "u" (some "k")) []
    (by simp) (by decide) (by decide) (fun f => rfl) (by decide)
    "sub_ab.en.vtt" hmem
  exact absurd h (by decide)

/-- Claim C2: with subtitle artifacts present and removals succeeding, a
cleaned transcript of length at most 50 characters is rejected and the
extractor falls through to Plan B on the cleaned-up filesystem, while a
transcript of 51 or more characters is accepted: `content` becomes the
transcript prefixed with the source marker, `error` is cleared, `file_obj`
is cleared, and Plan B never runs. -/
theorem claim_C2 (env : VideoEnv) (pfx aName : String) (s : OmniState) (fs : FS)
    (sub_file : String) (rest : List String)
    (hsub : env.subRaises = none)
    (hgen : (fs ++ env.subFiles).filter (vttNamed pfx) = sub_file :: rest)
    (hok : ∀ f, env.removeOk f = true) :
    (50 < (String.intercalate "\n" (cleanVtt (env.fileLines sub_file))).length →
      (load_youtube_node env pfx aName s fs).1.content =
        some (some (subtitleMarker ++
          String.intercalate "\n" (cleanVtt (env.fileLines sub_file)))) ∧
      (load_youtube_node env pfx aName s fs).1.error = some none ∧
      (load_youtube_node env pfx aName s fs).1.file_obj = some none ∧
      (load_youtube_node env pfx aName s fs).2 =
        (sub_file :: rest).foldl (fun a f => a.erase f) (fs ++ env.subFiles)) ∧
    ((String.intercalate "\n" (cleanVtt (env.fileLines sub_file))).length ≤ 50 →
      load_youtube_node env pfx aName s fs =
        planB env aName (resolveKey s.api_key env.defaultKey)
          ["--- [節點 2-A] 處理 YouTube ---", "嘗試使用 yt-dlp 下載字幕 (Plan A)...",
            "✅ 成功下載字幕檔: " ++ sub_file, "⚠️ 下載的字幕內容過短，視為失敗。"]
          ((sub_file :: rest).foldl (fun a f => a.erase f) (fs ++ env.subFiles))) := by
  constructor
  · intro hlen
    refine ⟨?_, ?_, ?_, ?_⟩ <;>
      simp [load_youtube_node, planA, hsub, hgen,
        removeSeq_all_ok (sub_file :: rest) env.removeOk _ (fun g _ => hok g), hlen]
  · intro hlen
    have hn : ¬ 50 < (String.intercalate "\n" (cleanVtt (env.fileLines sub_file))).length := by
      omega
    simp [load_youtube_node, planA, hsub, hgen,
      removeSeq_all_ok (sub_file :: rest) env.removeOk _ (fun g _ => hok g), hn]

/-- Witness for C2: a 60-character transcript is accepted with the source
marker prefixed. -/
def envC2 : VideoEnv :=
  { defaultKey := none, subRaises := none, subFiles := ["sub_cd.en.vtt"]
    fileLines := fun _ => [String.mk (List.replicate 60 'a')]
    removeOk := fun _ => true, audioRaises := none, uploaded := .error "x" }

theorem claim_C2_witness :
    (load_youtube_node envC2 "sub_cd" "audio_r.m4a" (initState "u" none) []).1.content =
      some (some ("【影片字幕】：\n" ++ String.mk (List.replicate 60 'a'))) :=
  (((claim_C2 envC2 "sub_cd" "audio_r.m4a" (initState "u" none) [] "sub_cd.en.vtt" []
    rfl (by decide) (fun f => rfl)).1 (by decide)).1).trans (by decide)

/-- Claim C4 counterexample: when the upload faults, the local temporary
audio artifact is NOT deleted — it remains on disk after the extractor
returns — contradicting the claim that it is deleted regardless of the
upload outcome. -/
def envC4 : VideoEnv :=
  { defaultKey := none, subRaises := none, subFiles := []
    fileLines := fun _ => [], removeOk := fun _ => true
    audioRaises := none, uploaded := .error "upload boom" }

theorem claim_C4_counterexample :
    (load_youtube_node envC4 "sub_q" "audio_x.m4a" (initState "u" (some "k")) []).2 =
      ["audio_x.m4a"] ∧
    (load_youtube_node envC4 "sub_q" "audio_x.m4a" (initState "u" (some "k")) []).1.error =
      some (some "upload boom") ∧
    (load_youtube_node envC4 "sub_q" "audio_x.m4a" (initState "u" (some "k")) []).1.content =
      some none ∧
    (load_youtube_node envC4 "sub_q" "audio_x.m4a" (initState "u" (some "k")) []).1.file_obj =
      some none :=
  ⟨by decide, by decide, by decide, by decide⟩

/-- Claim C4 as amended: the local temporary audio artifact is deleted right
after a SUCCESSFUL upload (if it exists); when the upload faults the
extractor returns the fault message as `error` with `content` and `file_obj`
written to none and the artifact left on disk; a download fault likewise
returns the message with `content`/`file_obj` unset and creates no
artifact. -/
theorem claim_C4 (env : VideoEnv) (aName : String) (ck : Option String)
    (logs : List String) (fs : FS)
    (hk : truthyS ck = true) (haN : aName ∉ fs) :
    (∀ msg, env.audioRaises = none → env.uploaded = .error msg →
      (planB env aName ck logs fs).1.error = some (some msg) ∧
      (planB env aName ck logs fs).1.content = some none ∧
      (planB env aName ck logs fs).1.file_obj = some none ∧
      (planB env aName ck logs fs).2 = fs ++ [aName]) ∧
    (∀ file, env.audioRaises = none → env.uploaded = .ok file →
      env.removeOk aName = true →
      (planB env aName ck logs fs).1.file_obj = some (some file) ∧
      (planB env aName ck logs fs).1.error = some none ∧
      (planB env aName ck logs fs).1.content = some none ∧
      (planB env aName ck logs fs).2 = fs) ∧
    (∀ msg, env.audioRaises = some msg →
      (planB env aName ck logs fs).1.error = some (some msg) ∧
      (planB env aName ck logs fs).1.content = some none ∧
      (planB env aName ck logs fs).1.file_obj = some none ∧
      (planB env aName ck logs fs).2 = fs) := by
  refine ⟨?_, ?_, ?_⟩
  · intro msg ha hu
    refine ⟨?_, ?_, ?_, ?_⟩ <;> simp [planB, hk, ha, hu]
  · intro file ha hu hro
    have hmem : aName ∈ fs ++ [aName] := by simp
    have herase : (fs ++ [aName]).erase aName = fs := by
      rw [List.erase_append_right _ haN]
      simp
    refine ⟨?_, ?_, ?_, ?_⟩ <;> simp [planB, hk, ha, hu, hro, hmem, herase]
  · intro msg ha
    refine ⟨?_, ?_, ?_, ?_⟩ <;> simp [planB, hk, ha]

/-- Witness for C4: a successful upload deletes the temp artifact and hands
back the media handle. -/
def envC4ok : VideoEnv :=
  { defaultKey := none, subRaises := none, subFiles := []
    fileLines := fun _ => [], removeOk := fun _ => true
    audioRaises := none, uploaded := .ok ⟨"files/z", "uri://z", "audio/mp4"⟩ }

theorem claim_C4_witness :
    (planB envC4ok "audio_y.m4a" (some "k") [] []).2 = [] ∧
    (planB envC4ok "audio_y.m4a" (some "k") [] []).1.file_obj =
      some (some ⟨"files/z", "uri://z", "audio/mp4"⟩) :=
  ⟨((claim_C4 envC4ok "audio_y.m4a" (some "k") [] [] (by decide) (by decide)).2.1
      ⟨"files/z", "uri://z", "audio/mp4"⟩ rfl rfl rfl).2.2.2,
   ((claim_C4 envC4ok "audio_y.m4a" (some "k") [] [] (by decide) (by decide)).2.1
      ⟨"files/z", "uri://z", "audio/mp4"⟩ rfl rfl rfl).1⟩
